import Mathlib

/-!
Shallow embedding of the access-control business layer (src/negocio) of the
Final_ProgII repository: models, validators, repositories, the
authentication, authorization and audit services and the access
orchestrator, together with theorems checking the specification claims.
-/

namespace AccessMFA

/-- Python datetime.time values are modelled as Nat codes strictly monotone
in the time of day (minutes since midnight suffice for every comparison
made); hm builds such a code from hours and minutes. -/
def hm (h m : Nat) : Nat := h * 60 + m

/-- Python datetime.datetime: a Nat day ordinal (the date) plus a Nat
time-of-day code. -/
structure FechaHora where
  fecha : Nat
  hora : Nat
  deriving DecidableEq, Repr

/-- Exception taxonomy of negocio/exceptions.py (the DominioError
subclasses), plus pyError modelling the Python-level TypeError and
AttributeError raised by the broken call sites of the source (keyword
mismatches and a missing repository method); pyError is not a DominioError,
so no except clause of the orchestrator catches it. -/
inductive DomErr where
  | validacion (msg : String)
  | autenticacion (msg : String)
  | autorizacion (msg : String)
  | noEncontrado (msg : String)
  | hardware (msg : String)
  | pyError (msg : String)
  deriving DecidableEq, Repr

/-- Message carried by an exception (Python str(ex)). -/
def DomErr.mensaje : DomErr → String
  | .validacion m => m
  | .autenticacion m => m
  | .autorizacion m => m
  | .noEncontrado m => m
  | .hardware m => m
  | .pyError m => m

/-- True exactly for the two error kinds audited by the orchestrator at the
authorization and factor steps: AutenticacionError and AutorizacionError. -/
def DomErr.esFalloAcceso : DomErr → Bool
  | .autenticacion _ => true
  | .autorizacion _ => true
  | _ => false

deriving instance DecidableEq for Except

/-- Boolean success test on an Except value. -/
def exOk {α : Type} : Except DomErr α → Bool
  | .ok _ => true
  | .error _ => false

/-- Whitespace test covering the ASCII characters Python str.strip removes. -/
def es_espacio (c : Char) : Bool :=
  c == ' ' || c == '\t' || c == '\n' || c == '\r' || c == '\x0b' || c == '\x0c'

/-- Strips leading and trailing whitespace characters from a character list. -/
def strip_lista (l : List Char) : List Char :=
  ((l.dropWhile es_espacio).reverse.dropWhile es_espacio).reverse

/-- Python str.strip modelled over the ASCII whitespace characters. -/
def pstrip (s : String) : String := String.mk (strip_lista s.data)

/-- Embedding of modelos._require_non_empty: rejects None-like or
whitespace-only strings and returns the stripped value. -/
def require_non_empty (valor nombre : String) : Except DomErr String :=
  let v := pstrip valor
  if v.data = [] then .error (.validacion (nombre ++ " no puede estar vacío.")) else .ok v

/-- Embedding of validadores.guarantee_int: ord(ch) - ord(0). -/
def guarantee_int (c : Char) : Int := (c.toNat : Int) - ('0'.toNat : Int)

/-- Decimal value of a digit-character list, as Python int() on a digit string. -/
def digitos_a_nat (l : List Char) : Nat :=
  l.foldl (fun acc c => acc * 10 + (c.toNat - '0'.toNat)) 0

/-- Weighted digit sum shared by the checksum loop of
validadores._cedula_checksum_ok and the wording of the specification:
coefficients [2,1,2,1,2,1,2,1,2] over the first nine digits, subtracting 9
from any product of at least 10. -/
def suma_ponderada (ced : List Char) : Int :=
  let coef : List Int := [2, 1, 2, 1, 2, 1, 2, 1, 2]
  ((ced.take 9).zip coef).foldl
    (fun acc par =>
      let p := guarantee_int par.1 * par.2
      acc + (if p ≥ 10 then p - 9 else p)) 0

/-- Embedding of validadores._cedula_checksum_ok: weighted sum over the first
nine digits, then verif = 0 if sum mod 10 == 0 else 10 - sum mod 10,
compared with the tenth digit. -/
def cedula_checksum_ok (ced : List Char) : Bool :=
  let s := suma_ponderada ced
  let m := s % 10
  let verif : Int := if m = 0 then 0 else 10 - m
  match ced.get? 9 with
  | some c => guarantee_int c == verif
  | none => false

/-- Embedding of validadores.validar_cedula. Python str.isdigit is modelled
by Char.isDigit, which covers the ASCII digit strings the checksum reads. -/
def validar_cedula (cedula : String) : Except DomErr String :=
  let ced := pstrip cedula
  if ced.data = [] then .error (.validacion "Cédula es requerida")
  else if ¬ ced.data.all Char.isDigit then
    .error (.validacion "Cédula inválida: use solo dígitos (sin letras ni guiones)")
  else if ced.data.length ≠ 10 then
    .error (.validacion "Cédula inválida: debe tener exactamente 10 dígitos")
  else if digitos_a_nat (ced.data.take 2) < 1 ∨ digitos_a_nat (ced.data.take 2) > 24 then
    .error (.validacion "Cédula inválida: Código de Provincia NO válido")
  else if (match ced.data.get? 2 with
           | some c => decide (guarantee_int c < 0 ∨ guarantee_int c > 5)
           | none => false) then
    .error (.validacion "Cédula inválida: Tercer dígito NO corresponde a Persona Natural")
  else if ¬ cedula_checksum_ok ced.data then
    .error (.validacion "Cédula inválida: Dígito verificador NO coincide")
  else .ok ced

/-- Embedding of enums.EstadoCredencial. -/
inductive EstadoCredencial where
  | ACTIVA | BLOQUEADA | EXPIRADA | PERDIDA
  deriving DecidableEq, Repr

/-- Embedding of enums.EstadoPin. -/
inductive EstadoPin where
  | ACTIVO | BLOQUEADO
  deriving DecidableEq, Repr

/-- Embedding of enums.ResultadoAutenticacion. -/
inductive ResultadoAutenticacion where
  | EXITO | FALLO
  deriving DecidableEq, Repr

/-- Embedding of enums.MetodoIngreso. -/
inductive MetodoIngreso where
  | CEDULA | RFID | PIN_GESTUAL | PATRON_GESTUAL
  deriving DecidableEq, Repr

/-- Embedding of enums.TipoArea. -/
inductive TipoArea where
  | LABORATORIO | BODEGA | AREA_SENSIBLE
  deriving DecidableEq, Repr

/-- Embedding of enums.EstadoPermiso. -/
inductive EstadoPermiso where
  | ACTIVO | SUSPENDIDO | EXPIRADO
  deriving DecidableEq, Repr

/-- Embedding of modelos.AreaAcceso (fields only; the constructor checks of
its post-init concern entity management flows outside the claims). -/
structure AreaAcceso where
  id_area : String
  nombre : String
  tipo : TipoArea
  ubicacion : String
  hora_apertura : Nat
  hora_cierre : Nat
  deriving DecidableEq, Repr

/-- Embedding of AreaAcceso.es_accesible_ahora (modelos.py lines 74 to 80). -/
def AreaAcceso.es_accesible_ahora (a : AreaAcceso) (ahora : FechaHora) : Bool :=
  let t := ahora.hora
  if a.hora_apertura ≤ a.hora_cierre then
    decide (a.hora_apertura ≤ t ∧ t ≤ a.hora_cierre)
  else
    decide (t ≥ a.hora_apertura ∨ t ≤ a.hora_cierre)

/-- Embedding of modelos.CredencialRFID. -/
structure CredencialRFID where
  serial : String
  cedula_propietario : String
  fecha_emision : Nat
  fecha_expiracion : Nat
  estado : EstadoCredencial := .ACTIVA
  intentos_fallidos : Nat := 0
  intentos_exitosos : Nat := 0
  ultimo_acceso : Option FechaHora := none
  deriving DecidableEq, Repr

/-- Embedding of CredencialRFID.esta_vigente (modelos.py lines 101 to 106). -/
def CredencialRFID.esta_vigente (c : CredencialRFID) (hoy : Nat) : Bool :=
  if c.estado = .BLOQUEADA ∨ c.estado = .PERDIDA then false
  else if hoy > c.fecha_expiracion then false
  else true

/-- Embedding of modelos.PinGestual (fields only). -/
structure PinGestual where
  id_pin : String
  cedula_propietario : String
  id_area : String
  id_banner : String
  secuencia_gestos : List Int
  estado : EstadoPin := .ACTIVO
  intentos_fallidos : Nat := 0
  max_intentos : Nat := 3
  deriving DecidableEq, Repr

/-- Embedding of modelos.PatronGestual (fields only). -/
structure PatronGestual where
  id_patron : String
  cedula_propietario : String
  secuencia_gestos : List Int
  fecha_captura : FechaHora
  tiempos_entre_gestos : Option (List Rat) := none
  deriving DecidableEq, Repr

/-- Embedding of modelos.PermisoAcceso (fields only). -/
structure PermisoAcceso where
  id_permiso : String
  cedula_propietario : String
  id_area : String
  estado : EstadoPermiso := .ACTIVO
  vigente_desde : Option Nat := none
  vigente_hasta : Option Nat := none
  deriving DecidableEq, Repr

/-- Embedding of PermisoAcceso.es_vigente (modelos.py lines 182 to 189);
a None bound is falsy in Python, so the corresponding check is skipped. -/
def PermisoAcceso.es_vigente (p : PermisoAcceso) (hoy : Nat) : Bool :=
  if p.estado ≠ .ACTIVO then false
  else if (match p.vigente_desde with
           | some d => decide (hoy < d)
           | none => false) then false
  else if (match p.vigente_hasta with
           | some d => decide (hoy > d)
           | none => false) then false
  else true

/-- Embedding of modelos.RegistroAutenticacion (fields only; construction
with its post-init checks is mk_registro below). -/
structure RegistroAutenticacion where
  id_registro : String
  timestamp : FechaHora
  cedula_propietario : String
  id_area : String
  metodo : MetodoIngreso
  factores : List MetodoIngreso := []
  resultado : ResultadoAutenticacion := .FALLO
  motivo : String := ""
  id_permiso : Option String := none
  deriving DecidableEq, Repr

/-- Embedding of RegistroAutenticacion construction including its post-init
validation: non-empty id, validated owner id, non-empty area id. -/
def mk_registro (id_registro : String) (timestamp : FechaHora)
    (cedula_propietario id_area : String) (metodo : MetodoIngreso)
    (factores : List MetodoIngreso) (resultado : ResultadoAutenticacion)
    (motivo : String) (id_permiso : Option String) :
    Except DomErr RegistroAutenticacion :=
  match require_non_empty id_registro "ID Registro" with
  | .error e => .error e
  | .ok id' =>
    match require_non_empty cedula_propietario "Cédula Usuario" with
    | .error e => .error e
    | .ok ced' =>
      match validar_cedula ced' with
      | .error e => .error e
      | .ok _ =>
        match require_non_empty id_area "ID Area" with
        | .error e => .error e
        | .ok area' =>
          .ok { id_registro := id', timestamp := timestamp,
                cedula_propietario := ced', id_area := area', metodo := metodo,
                factores := factores, resultado := resultado, motivo := motivo,
                id_permiso := id_permiso }

/-- Embedding of modelos.Acceso (fields only; construction with its
post-init checks is mk_acceso below). -/
structure Acceso where
  id_acceso : String
  cedula_propietario : String
  id_area : String
  fecha_entrada : FechaHora
  registro_exitoso_id : String
  fecha_salida : Option FechaHora := none
  deriving DecidableEq, Repr

/-- Embedding of Acceso construction including its post-init validation. -/
def mk_acceso (id_acceso cedula_propietario id_area : String)
    (fecha_entrada : FechaHora) (registro_exitoso_id : String) :
    Except DomErr Acceso :=
  match require_non_empty id_acceso "ID Acceso" with
  | .error e => .error e
  | .ok id' =>
    match require_non_empty cedula_propietario "Cédula Usuario" with
    | .error e => .error e
    | .ok ced' =>
      match validar_cedula ced' with
      | .error e => .error e
      | .ok _ =>
        match require_non_empty id_area "ID Area" with
        | .error e => .error e
        | .ok area' =>
          match require_non_empty registro_exitoso_id "Registro Exitoso ID" with
          | .error e => .error e
          | .ok reg' =>
            .ok { id_acceso := id', cedula_propietario := ced', id_area := area',
                  fecha_entrada := fecha_entrada, registro_exitoso_id := reg' }

/-- Association-list lookup used to model the Python dict repositories;
iteration order of a dict is the list order. -/
def buscar {κ α : Type} [DecidableEq κ] : List (κ × α) → κ → Option α
  | [], _ => none
  | (k, v) :: resto, clave => if k = clave then some v else buscar resto clave

/-- Replaces the value stored under a key, modelling an in-place mutation of
the object held by a dict entry. -/
def actualizar {κ α : Type} [DecidableEq κ] : List (κ × α) → κ → α → List (κ × α)
  | [], _, _ => []
  | (k, v) :: resto, clave, nuevo =>
      if k = clave then (k, nuevo) :: resto else (k, v) :: actualizar resto clave nuevo

/-- Embedding of RepoPermisos.buscar_permiso: first stored permission for
(owner, area) that is current as of the given day, else none. -/
def buscar_permiso : List PermisoAcceso → String → String → Nat → Option PermisoAcceso
  | [], _, _, _ => none
  | p :: resto, cedula, id_area, hoy =>
      if p.cedula_propietario = cedula ∧ p.id_area = id_area ∧ p.es_vigente hoy then some p
      else buscar_permiso resto cedula id_area hoy

/-- Embedding of RepoPins.obtener_por_usuario_area: the store keys PIN
entries by the (owner, area) pair. -/
def obtener_por_usuario_area (pins : List ((String × String) × PinGestual))
    (cedula_propietario id_area : String) : Except DomErr PinGestual :=
  match buscar pins (cedula_propietario, id_area) with
  | some p => .ok p
  | none => .error (.noEncontrado ("PIN no encontrado para Cédula > " ++ cedula_propietario ++ " en Área > " ++ id_area))

/-- In-memory system state: the repositories of repositorios.py plus a
fresh-id counter modelling uuid4 and a wall clock modelling datetime.now. -/
structure Sistema where
  areas : List (String × AreaAcceso) := []
  permisos : List PermisoAcceso := []
  rfid : List (String × CredencialRFID) := []
  pins : List ((String × String) × PinGestual) := []
  patrones : List (String × PatronGestual) := []
  registros : List RegistroAutenticacion := []
  accesos : List Acceso := []
  sig_id : Nat := 0
  reloj : FechaHora := ⟨0, 0⟩
  deriving DecidableEq, Repr

/-- Injective fresh-id generator modelling str(uuid4()); only freshness and
non-emptiness of the produced string matter to the embedded code. -/
def uuid_modelo (n : Nat) : String := String.mk (List.replicate (n + 1) 'u')

/-- Service configuration: the dataclass fields of ServicioAutenticacion and
the environment-derived knobs read by caso_uso_acceso and validar_patron.
Floats are modelled as exact rationals. -/
structure Config where
  max_intentos_rfid : Nat := 3
  max_intentos_pin : Nat := 3
  umbral_similitud_patron : Rat := 9 / 10
  patron_len : Nat := 6
  timing_check : Bool := false
  timing_tol : Rat := 8 / 10
  deriving DecidableEq, Repr

/-- Default configuration (every knob at its source default). -/
def cfg0 : Config := {}

/-- Embedding of ServicioAutorizacion.verificar_permiso_y_horario: area
lookup (NotFound propagates), opening-window gate, then permission lookup. -/
def verificar_permiso_y_horario (st : Sistema) (cedula_propietario id_area : String)
    (ahora : FechaHora) : Except DomErr PermisoAcceso :=
  match buscar st.areas id_area with
  | none => .error (.noEncontrado ("Area no encontrada: " ++ id_area))
  | some area =>
    if ¬ area.es_accesible_ahora ahora then
      .error (.autorizacion "Acceso Denegado: fuera de horario permitido.")
    else
      match buscar_permiso st.permisos cedula_propietario id_area ahora.fecha with
      | none => .error (.autorizacion "Acceso Denegado: el usuario no tiene permiso vigente para esta área.")
      | some permiso => .ok permiso

/-- Credential-level core of ServicioAutenticacion.validar_rfid (lines 29 to
58): state hard-fails, owner mismatch and expiry failure counting with the
blocking threshold, and the success-path mutations; returns the outcome
together with the mutated credential. -/
def validar_rfid_cred (cfg : Config) (cred : CredencialRFID)
    (cedula_esperada : String) (ahora : FechaHora) :
    Except DomErr Unit × CredencialRFID :=
  if cred.estado = .BLOQUEADA then (.error (.autenticacion "RFID bloqueada."), cred)
  else if cred.estado = .PERDIDA then (.error (.autenticacion "RFID marcada como perdida."), cred)
  else if cred.estado = .EXPIRADA then (.error (.autenticacion "RFID expirada."), cred)
  else if cred.cedula_propietario ≠ cedula_esperada then
    let fallos := cred.intentos_fallidos + 1
    if fallos ≥ cfg.max_intentos_rfid then
      (.error (.autenticacion "RFID bloqueada por demasiados intentos fallidos."),
       { cred with intentos_fallidos := fallos, estado := .BLOQUEADA })
    else
      (.error (.autenticacion "RFID no corresponde al usuario."),
       { cred with intentos_fallidos := fallos })
  else if ¬ cred.esta_vigente ahora.fecha then
    let fallos := cred.intentos_fallidos + 1
    let estado1 := if ahora.fecha > cred.fecha_expiracion then EstadoCredencial.EXPIRADA else cred.estado
    if fallos ≥ cfg.max_intentos_rfid then
      (.error (.autenticacion "RFID bloqueada por demasiados intentos fallidos."),
       { cred with intentos_fallidos := fallos, estado := .BLOQUEADA })
    else
      (.error (.autenticacion "RFID inválida/expirada/bloqueada."),
       { cred with intentos_fallidos := fallos, estado := estado1 })
  else
    (.ok (),
     { cred with intentos_exitosos := cred.intentos_exitosos + 1,
                 intentos_fallidos := 0,
                 ultimo_acceso := some ahora })

/-- Embedding of ServicioAutenticacion.validar_rfid: serial lookup with the
NotFound translation, then the credential-level checks; the credential
mutation is stored back into the repository. -/
def validar_rfid (cfg : Config) (st : Sistema) (serial cedula_esperada : String)
    (ahora : FechaHora) : Except DomErr Unit × Sistema :=
  match buscar st.rfid serial with
  | none => (.error (.autenticacion "RFID no registrada en el sistema."), st)
  | some cred =>
    let r := validar_rfid_cred cfg cred cedula_esperada ahora
    (r.1, { st with rfid := actualizar st.rfid serial r.2 })

/-- PIN-level core of ServicioAutenticacion.validar_pin (lines 66 to 76):
blocked hard-fail, exact sequence comparison with fail counting and the
blocking threshold, success resets the counter. In the source these lines
are dead code: the lookup above them raises AttributeError on every call
(see validar_pin_fuente); this definition records what they would do. -/
def validar_pin_con (cfg : Config) (pin : PinGestual) (secuencia_capturada : List Int) :
    Except DomErr Unit × PinGestual :=
  if pin.estado = .BLOQUEADO then
    (.error (.autenticacion "PIN gestual bloqueado para esta área."), pin)
  else if secuencia_capturada ≠ pin.secuencia_gestos then
    let fallos := pin.intentos_fallidos + 1
    let estado1 := if fallos ≥ cfg.max_intentos_pin then EstadoPin.BLOQUEADO else pin.estado
    (.error (.autenticacion "PIN gestual incorrecto."),
     { pin with intentos_fallidos := fallos, estado := estado1 })
  else
    (.ok (), { pin with intentos_fallidos := 0 })

/-- Message of the AttributeError raised by the first statement of the
source validar_pin: RepoPins defines no obtener_por_area method. -/
def msg_attributeerror_pin : String :=
  "AttributeError: RepoPins object has no attribute obtener_por_area"

/-- Embedding of ServicioAutenticacion.validar_pin exactly as written: its
first statement calls self.repo_pins.obtener_por_area, an attribute RepoPins
does not define, so every call raises AttributeError inside the try block;
AttributeError is not RecursoNoEncontradoError, so it propagates untranslated
and the state is untouched. Everything below the lookup, the blocked check
and the comparison and lockout code of lines 66 to 76, is unreachable. -/
def validar_pin_fuente (st : Sistema) (id_area : String)
    (secuencia_capturada : List Int) : Except DomErr Unit × Sistema :=
  (.error (.pyError msg_attributeerror_pin), st)

/-- Intent model of ServicioAutenticacion.validar_pin: the source method as
written never performs a lookup (see validar_pin_fuente); the repository API
(the store is keyed by the (owner, area) pair and only exposes
obtener_por_usuario_area), the orchestrator, which passes the owner id, and
the specification all show the intended lookup is by the (owner, area) pair.
This definition models that intended lookup with the NotFound translation
and continues with validar_pin_con, the comparison and lockout code of
lines 66 to 76, which is unreachable in the source. -/
def validar_pin (cfg : Config) (st : Sistema) (cedula_propietario id_area : String)
    (secuencia_capturada : List Int) : Except DomErr Unit × Sistema :=
  match obtener_por_usuario_area st.pins cedula_propietario id_area with
  | .error _ => (.error (.autenticacion "No hay PIN gestual configurado para esta área."), st)
  | .ok pin =>
    let r := validar_pin_con cfg pin secuencia_capturada
    (r.1, { st with pins := actualizar st.pins (cedula_propietario, id_area) r.2 })

/-- Position-wise match count between the enrolled and captured sequences
(the loop of validar_patron, lines 88 to 92). -/
def coincidencias : List Int → List Int → Nat
  | a :: ra, b :: rb => (if a = b then 1 else 0) + coincidencias ra rb
  | _, _ => 0

/-- Similarity score of validar_patron: matches over the longer length. -/
def similitud_patron (enrolada capturada : List Int) : Rat :=
  (coincidencias enrolada capturada : Rat) / ((max enrolada.length capturada.length : Nat) : Rat)

/-- Timing-tolerance loop of validar_patron (lines 112 to 120): true when
every reference interval is matched within the relative tolerance. -/
def tiempos_en_tolerancia (tol : Rat) : List Rat → List Rat → Bool
  | ref :: rr, got :: rg =>
      if ref ≤ 0 then tiempos_en_tolerancia tol rr rg
      else if max 0 ((1 - tol) * ref) ≤ got ∧ got ≤ (1 + tol) * ref then
        tiempos_en_tolerancia tol rr rg
      else false
  | _, _ => true

/-- Embedding of ServicioAutenticacion.validar_patron: enrollment lookup
with the NotFound translation, empty-capture validation error, similarity
threshold, then the feature-flagged timing check (off by default). -/
def validar_patron (cfg : Config) (st : Sistema) (cedula : String)
    (secuencia_capturada : List Int) (tiempos : Option (List Rat)) :
    Except DomErr Unit :=
  match buscar st.patrones cedula with
  | none => .error (.autenticacion "No hay patrón gestual enrolado para este usuario.")
  | some patron =>
    if secuencia_capturada.length = 0 then
      .error (.validacion "La secuencia capturada del patrón está vacía.")
    else
      let similitud := similitud_patron patron.secuencia_gestos secuencia_capturada
      if similitud < cfg.umbral_similitud_patron then
        .error (.autenticacion ("Patrón gestual no coincide (similitud=" ++ toString similitud ++ ", umbral=" ++ toString cfg.umbral_similitud_patron ++ ")."))
      else
        match cfg.timing_check, patron.tiempos_entre_gestos, tiempos with
        | true, some refs, some gots =>
          if refs.length ≠ gots.length then .ok ()
          else if tiempos_en_tolerancia cfg.timing_tol refs gots then .ok ()
          else .error (.autenticacion "Patrón gestual: timings fuera de tolerancia.")
        | _, _, _ => .ok ()

/-- Embedding of ServicioAuditoria.registrar: build the record (post-init
validation included), append it and return it; a None timestamp defaults to
the wall clock; the uuid draw is modelled by the fresh-id counter. -/
def registrar (st : Sistema) (cedula_propietario id_area : String)
    (metodo : MetodoIngreso) (factores : List MetodoIngreso)
    (resultado : ResultadoAutenticacion) (motivo : String)
    (id_permiso : Option String) (timestamp : Option FechaHora) :
    Except DomErr RegistroAutenticacion × Sistema :=
  let ts := timestamp.getD st.reloj
  match mk_registro (uuid_modelo st.sig_id) ts cedula_propietario id_area metodo
      factores resultado motivo id_permiso with
  | .error e => (.error e, { st with sig_id := st.sig_id + 1 })
  | .ok r => (.ok r, { st with registros := st.registros ++ [r], sig_id := st.sig_id + 1 })

/-- Actuator collaborator model: each operation either succeeds (none) or
raises the recorded exception. -/
structure Actuador where
  exito_err : Option DomErr := none
  puerta_err : Option DomErr := none
  fallo_err : Option DomErr := none
  deriving DecidableEq, Repr

/-- Gesture-sensor collaborator model: result of the n-th capturar_secuencia
call within one solicitar_acceso run (0 = PIN step, 1 = pattern step). -/
abbrev Sensor := Nat → Except DomErr (List Int × Option (List Rat))

/-- Failure-side audit write shared by the two except handlers of
solicitar_acceso: best-effort actuator signal (its errors are swallowed,
so the actuator is not consulted here), one FAILURE record, then re-raise
of the original error; an error raised by the record constructor itself
replaces the original one, as a raise inside an except clause would. -/
def auditar_fallo (st : Sistema) (cedula_propietario id_area : String)
    (factores : List MetodoIngreso) (permiso : Option PermisoAcceso)
    (e : DomErr) (motivo : String) (timestamp : Option FechaHora) :
    Except DomErr (Acceso × RegistroAutenticacion) × Sistema :=
  match registrar st cedula_propietario id_area .RFID factores .FALLO motivo
      (permiso.map fun p => p.id_permiso) timestamp with
  | (.ok _, st1) => (.error e, st1)
  | (.error e1, st1) => (.error e1, st1)

/-- Exception dispatch of solicitar_acceso (lines 109 to 142):
AutenticacionError and AutorizacionError are audited with the supplied
timestamp and re-raised; IntegracionHardwareError is audited with a
prefixed reason and a defaulted timestamp and re-raised; every other
exception propagates unaudited. -/
def manejar (st : Sistema) (cedula_propietario id_area : String) (ahora : FechaHora)
    (factores : List MetodoIngreso) (permiso : Option PermisoAcceso) (e : DomErr) :
    Except DomErr (Acceso × RegistroAutenticacion) × Sistema :=
  match e with
  | .autenticacion _ =>
      auditar_fallo st cedula_propietario id_area factores permiso e e.mensaje (some ahora)
  | .autorizacion _ =>
      auditar_fallo st cedula_propietario id_area factores permiso e e.mensaje (some ahora)
  | .hardware m =>
      auditar_fallo st cedula_propietario id_area factores permiso e ("Fallo hardware: " ++ m) none
  | _ => (.error e, st)

/-- Message of the TypeError raised at the orchestrator call to
validar_rfid: the call passes the keyword cedula_propietario, but the
signature declares cedula_esperada. -/
def msg_typeerror_rfid : String :=
  "TypeError: validar_rfid() got an unexpected keyword argument cedula_propietario"

/-- Embedding of CasoUsoAcceso.solicitar_acceso exactly as written. Step 1
calls the authorization service with matching keywords and is live,
together with the except handlers (modelled by manejar): an
AutorizacionError from it is audited and re-raised. Step 2 then calls
validar_rfid with the keyword cedula_propietario, which the signature
(serial, cedula_esperada, ahora) does not accept, so every run that passes
authorization raises TypeError at the call site, before the service body
runs; TypeError is no DominioError, so manejar propagates it unaudited with
the state untouched. Every later line of the source, the sensor captures,
validar_pin and validar_patron (whose calls carry the same keyword
mismatch), the actuator signalling, the success audit and the access
record, is unreachable dead code. -/
def solicitar_acceso (cfg : Config) (st : Sistema)
    (cedula_propietario id_area serial_rfid : String) (sensor : Sensor)
    (actuador : Actuador) (ahora : FechaHora) :
    Except DomErr (Acceso × RegistroAutenticacion) × Sistema :=
  match verificar_permiso_y_horario st cedula_propietario id_area ahora with
  | .error e => manejar st cedula_propietario id_area ahora [] none e
  | .ok permiso =>
    manejar st cedula_propietario id_area ahora [] (some permiso) (.pyError msg_typeerror_rfid)

/-- Option view of an Except value. -/
def exToOption {α : Type} : Except DomErr α → Option α
  | .ok a => some a
  | .error _ => none

/-- Audit record value produced by a successful mk_registro call on a
generated id: the stored strings are the stripped inputs. -/
def mk_registro_val (n : Nat) (ts : FechaHora) (ced idA : String)
    (met : MetodoIngreso) (fs : List MetodoIngreso)
    (res : ResultadoAutenticacion) (mot : String) (idp : Option String) :
    RegistroAutenticacion :=
  { id_registro := uuid_modelo n, timestamp := ts,
    cedula_propietario := pstrip ced, id_area := pstrip idA, metodo := met,
    factores := fs, resultado := res, motivo := mot, id_permiso := idp }

/-- FAILURE audit record written by the except handlers of
solicitar_acceso, as a function of the state at the raise site, the factors
accumulated so far, the permission obtained so far and the raised error. -/
def registro_fallo (st : Sistema) (cedula_propietario id_area : String)
    (ahora : FechaHora) (factores : List MetodoIngreso)
    (permiso : Option PermisoAcceso) (e : DomErr) : RegistroAutenticacion :=
  mk_registro_val st.sig_id ahora cedula_propietario id_area .RFID factores
    .FALLO e.mensaje (permiso.map fun p => p.id_permiso)

/-- FAILURE audit record written by the hardware-error handler of
solicitar_acceso: the reason carries the hardware prefix and the timestamp
defaults to the wall clock. -/
def registro_fallo_hw (st : Sistema) (cedula_propietario id_area : String)
    (factores : List MetodoIngreso) (permiso : Option PermisoAcceso)
    (m : String) : RegistroAutenticacion :=
  mk_registro_val st.sig_id st.reloj cedula_propietario id_area .RFID factores
    .FALLO ("Fallo hardware: " ++ m) (permiso.map fun p => p.id_permiso)

/-- Opening-window acceptance exactly as the specification words it: same-day
semantics when open is at most close, otherwise the window wraps midnight. -/
def ventana_spec (apertura cierre t : Nat) : Bool :=
  if apertura ≤ cierre then decide (apertura ≤ t ∧ t ≤ cierre)
  else decide (t ≥ apertura ∨ t ≤ cierre)

/-- Area with opening 20:00 and closing 07:00, the worked example of the
window claim. -/
def area_nocturna : AreaAcceso :=
  { id_area := "A1", nombre := "Laboratorio Nocturno", tipo := TipoArea.LABORATORIO,
    ubicacion := "Bloque B", hora_apertura := hm 20 0, hora_cierre := hm 7 0 }

/-- Checksum acceptance as the claim words it: the check digit computed as
(10 - sum mod 10) mod 10 must equal the tenth digit. -/
def checksum_spec (ced : List Char) : Bool :=
  let s := suma_ponderada ced
  match ced.get? 9 with
  | some c => guarantee_int c == (10 - s % 10) % 10
  | none => false

/-- National-ID acceptance exactly as the claim words it: exactly ten
digits, province code in [1,24], third digit in [0,5], weighted checksum. -/
def cedula_spec (s : String) : Bool :=
  decide (s.data.length = 10) && s.data.all Char.isDigit
  && decide (1 ≤ digitos_a_nat (s.data.take 2) ∧ digitos_a_nat (s.data.take 2) ≤ 24)
  && (match s.data.get? 2 with
      | some c => decide (0 ≤ guarantee_int c ∧ guarantee_int c ≤ 5)
      | none => false)
  && checksum_spec s.data

/-- Valid national ID used by the concrete scenarios (province 01, third
digit 0, weighted sum 10, check digit 0). -/
def cedula_demo : String := "0102030400"

/-- Second valid national ID (province 09, weighted sum 18, check digit 2). -/
def cedula_demo2 : String := "0902030402"

/-- ACTIVE four-gesture PIN used by the PIN-lockout scenarios. -/
def pin_ejemplo : PinGestual :=
  { id_pin := "P1", cedula_propietario := cedula_demo, id_area := "A1",
    id_banner := "A12345678", secuencia_gestos := [1, 3, 7, 15] }

/-- PIN of a second owner for the same area. -/
def pin_u2 : PinGestual :=
  { id_pin := "P2", cedula_propietario := cedula_demo2, id_area := "A1",
    id_banner := "A87654321", secuencia_gestos := [5, 6, 7, 8] }

/-- ACTIVE credential with fail-count 0 whose expiry date has passed. -/
def cred_expirada : CredencialRFID :=
  { serial := "R1", cedula_propietario := cedula_demo,
    fecha_emision := 0, fecha_expiracion := 5 }

/-- Enrolled behavioural pattern of the end-to-end scenarios. -/
def patron_demo : PatronGestual :=
  { id_patron := "T1", cedula_propietario := cedula_demo,
    secuencia_gestos := [1, 1, 2, 3, 5, 8], fecha_captura := ⟨0, 0⟩ }

/-- Area open 07:00 to 20:00 used by the end-to-end scenarios. -/
def area_demo : AreaAcceso :=
  { id_area := "A1", nombre := "Laboratorio A", tipo := TipoArea.LABORATORIO,
    ubicacion := "Bloque A", hora_apertura := hm 7 0, hora_cierre := hm 20 0 }

/-- Active unbounded permission of the end-to-end scenarios. -/
def permiso_demo : PermisoAcceso :=
  { id_permiso := "PER1", cedula_propietario := cedula_demo, id_area := "A1" }

/-- Active credential of the end-to-end scenarios, expiring on day 100. -/
def cred_demo : CredencialRFID :=
  { serial := "R1", cedula_propietario := cedula_demo,
    fecha_emision := 0, fecha_expiracion := 100 }

/-- System holding the entities above, keyed as repositorios.py keys them. -/
def sistema_demo : Sistema :=
  { areas := [("A1", area_demo)],
    permisos := [permiso_demo],
    rfid := [("R1", cred_demo)],
    pins := [((cedula_demo, "A1"), pin_ejemplo)],
    patrones := [(cedula_demo, patron_demo)] }

/-- Wall-clock instant of the end-to-end scenarios: day 3, 10:00, inside
the window and before the credential expiry. -/
def ahora_demo : FechaHora := ⟨3, hm 10 0⟩

/-- Sensor whose PIN capture times out after 2 of 4 gestures. -/
def sensor_timeout : Sensor := fun n =>
  if n = 0 then .ok ([1, 3], none) else .ok ([], none)

/-- Actuator with no failures. -/
def act0 : Actuador := {}

lemma es_espacio_u : es_espacio 'u' = false := rfl

lemma dropWhile_espacio_replicate_u (n : Nat) :
    List.dropWhile es_espacio (List.replicate n 'u') = List.replicate n 'u' := by
  cases n with
  | zero => rfl
  | succ k => rw [List.replicate_succ, List.dropWhile_cons, es_espacio_u]; simp

lemma strip_lista_replicate_u (n : Nat) :
    strip_lista (List.replicate n 'u') = List.replicate n 'u' := by
  unfold strip_lista
  rw [dropWhile_espacio_replicate_u, List.reverse_replicate,
    dropWhile_espacio_replicate_u, List.reverse_replicate]

lemma pstrip_uuid (n : Nat) : pstrip (uuid_modelo n) = uuid_modelo n := by
  show String.mk (strip_lista (List.replicate (n + 1) 'u')) = _
  rw [strip_lista_replicate_u]; rfl

lemma uuid_data_ne (n : Nat) : (uuid_modelo n).data ≠ [] := by
  show List.replicate (n + 1) 'u' ≠ []
  simp

lemma strip_lista_eq_rdrop (l : List Char) :
    strip_lista l = List.rdropWhile es_espacio (List.dropWhile es_espacio l) := rfl

lemma strip_lista_idem (l : List Char) :
    strip_lista (strip_lista l) = strip_lista l := by
  rw [strip_lista_eq_rdrop, strip_lista_eq_rdrop]
  have hdrop : List.dropWhile es_espacio
      (List.rdropWhile es_espacio (List.dropWhile es_espacio l)) =
      List.rdropWhile es_espacio (List.dropWhile es_espacio l) := by
    obtain ⟨t, ht⟩ := List.rdropWhile_prefix es_espacio (List.dropWhile es_espacio l)
    cases hrd : List.rdropWhile es_espacio (List.dropWhile es_espacio l) with
    | nil => simp
    | cons a r =>
      have hdl : List.dropWhile es_espacio l = a :: (r ++ t) := by
        rw [← ht, hrd]; simp
      have h0 : 0 < (List.dropWhile es_espacio l).length := by rw [hdl]; simp
      have ha := List.dropWhile_get_zero_not es_espacio l h0
      rw [show (List.dropWhile es_espacio l).get ⟨0, h0⟩ = a from by simp [hdl]] at ha
      rw [List.dropWhile_cons]
      simp [ha]
  rw [hdrop, List.rdropWhile_idempotent]

lemma pstrip_idem (s : String) : pstrip (pstrip s) = pstrip s := by
  show String.mk (strip_lista (strip_lista s.data)) = _
  rw [strip_lista_idem]; rfl

lemma validar_cedula_pstrip (s : String) :
    validar_cedula (pstrip s) = validar_cedula s := by
  unfold validar_cedula
  rw [pstrip_idem]

lemma exOk_error_ne {α : Type} (e : DomErr) :
    exOk (Except.error e : Except DomErr α) ≠ true := fun hh => nomatch hh

lemma checksum_eq (l : List Char) : cedula_checksum_ok l = checksum_spec l := by
  simp only [cedula_checksum_ok, checksum_spec]
  have h0 : (0 : Int) ≤ suma_ponderada l % 10 := Int.emod_nonneg _ (by norm_num)
  have h1 : suma_ponderada l % 10 < 10 := Int.emod_lt_of_pos _ (by norm_num)
  have hv : (if suma_ponderada l % 10 = 0 then (0 : Int) else 10 - suma_ponderada l % 10)
      = (10 - suma_ponderada l % 10) % 10 := by
    rcases eq_or_ne (suma_ponderada l % 10) 0 with h | h
    · rw [if_pos h, h]; omega
    · rw [if_neg h]; omega
  rw [hv]

lemma require_uuid (n : Nat) (nombre : String) :
    require_non_empty (uuid_modelo n) nombre = .ok (uuid_modelo n) := by
  simp only [require_non_empty, pstrip_uuid]
  rw [if_neg (uuid_data_ne n)]

lemma validar_cedula_ok_ne (ced : String) (h : exOk (validar_cedula ced) = true) :
    (pstrip ced).data ≠ [] := by
  intro e
  simp only [validar_cedula] at h
  rw [if_pos e] at h
  exact exOk_error_ne _ h

lemma require_de_ok (ced : String) (nombre : String)
    (h : exOk (validar_cedula ced) = true) :
    require_non_empty ced nombre = .ok (pstrip ced) := by
  simp only [require_non_empty]
  rw [if_neg (validar_cedula_ok_ne ced h)]

lemma validar_cedula_pstrip_ok (ced : String) (h : exOk (validar_cedula ced) = true) :
    ∃ v, validar_cedula (pstrip ced) = .ok v := by
  rw [validar_cedula_pstrip]
  cases hx : validar_cedula ced with
  | ok v => exact ⟨v, rfl⟩
  | error e => rw [hx] at h; exact absurd h (exOk_error_ne _)

lemma mk_registro_uuid_ok (n : Nat) (ts : FechaHora) (ced idA : String)
    (met : MetodoIngreso) (fs : List MetodoIngreso) (res : ResultadoAutenticacion)
    (mot : String) (idp : Option String)
    (hced : exOk (validar_cedula ced) = true)
    (hidA : (pstrip idA).data ≠ []) :
    mk_registro (uuid_modelo n) ts ced idA met fs res mot idp =
      .ok (mk_registro_val n ts ced idA met fs res mot idp) := by
  obtain ⟨v, hv⟩ := validar_cedula_pstrip_ok ced hced
  have hra : require_non_empty idA "ID Area" = .ok (pstrip idA) := by
    simp only [require_non_empty]
    rw [if_neg hidA]
  simp only [mk_registro, require_uuid, require_de_ok ced _ hced, hv, hra, mk_registro_val]

lemma mk_acceso_uuid_ok (n : Nat) (ced idA : String) (fe : FechaHora) (m : Nat)
    (hced : exOk (validar_cedula ced) = true)
    (hidA : (pstrip idA).data ≠ []) :
    mk_acceso (uuid_modelo n) ced idA fe (uuid_modelo m) =
      .ok { id_acceso := uuid_modelo n, cedula_propietario := pstrip ced,
            id_area := pstrip idA, fecha_entrada := fe,
            registro_exitoso_id := uuid_modelo m } := by
  obtain ⟨v, hv⟩ := validar_cedula_pstrip_ok ced hced
  have hra : require_non_empty idA "ID Area" = .ok (pstrip idA) := by
    simp only [require_non_empty]
    rw [if_neg hidA]
  simp only [mk_acceso, require_uuid, require_de_ok ced _ hced, hv, hra]

lemma registrar_eq (st : Sistema) (ced idA : String) (met : MetodoIngreso)
    (fs : List MetodoIngreso) (res : ResultadoAutenticacion) (mot : String)
    (idp : Option String) (tso : Option FechaHora)
    (hced : exOk (validar_cedula ced) = true)
    (hidA : (pstrip idA).data ≠ []) :
    registrar st ced idA met fs res mot idp tso =
      (.ok (mk_registro_val st.sig_id (tso.getD st.reloj) ced idA met fs res mot idp),
       { st with
         registros := st.registros ++
           [mk_registro_val st.sig_id (tso.getD st.reloj) ced idA met fs res mot idp],
         sig_id := st.sig_id + 1 }) := by
  simp only [registrar, mk_registro_uuid_ok st.sig_id _ ced idA met fs res mot idp hced hidA]

lemma manejar_fallo_eq (st : Sistema) (ced idA : String) (ahora : FechaHora)
    (fs : List MetodoIngreso) (permiso : Option PermisoAcceso) (e : DomErr)
    (he : e.esFalloAcceso = true)
    (hced : exOk (validar_cedula ced) = true)
    (hidA : (pstrip idA).data ≠ []) :
    manejar st ced idA ahora fs permiso e =
      (.error e, { st with
         registros := st.registros ++ [registro_fallo st ced idA ahora fs permiso e],
         sig_id := st.sig_id + 1 }) := by
  cases e with
  | autenticacion m =>
    simp only [manejar, auditar_fallo,
      registrar_eq st ced idA .RFID fs .FALLO _ _ (some ahora) hced hidA]
    rfl
  | autorizacion m =>
    simp only [manejar, auditar_fallo,
      registrar_eq st ced idA .RFID fs .FALLO _ _ (some ahora) hced hidA]
    rfl
  | validacion m => exact absurd he (by simp [DomErr.esFalloAcceso])
  | noEncontrado m => exact absurd he (by simp [DomErr.esFalloAcceso])
  | hardware m => exact absurd he (by simp [DomErr.esFalloAcceso])
  | pyError m => exact absurd he (by simp [DomErr.esFalloAcceso])

lemma manejar_hardware_eq (st : Sistema) (ced idA : String) (ahora : FechaHora)
    (fs : List MetodoIngreso) (permiso : Option PermisoAcceso) (m : String)
    (hced : exOk (validar_cedula ced) = true)
    (hidA : (pstrip idA).data ≠ []) :
    manejar st ced idA ahora fs permiso (.hardware m) =
      (.error (.hardware m), { st with
         registros := st.registros ++ [registro_fallo_hw st ced idA fs permiso m],
         sig_id := st.sig_id + 1 }) := by
  simp only [manejar, auditar_fallo,
    registrar_eq st ced idA .RFID fs .FALLO _ _ none hced hidA]
  rfl

lemma manejar_validacion_eq (st : Sistema) (ced idA : String) (ahora : FechaHora)
    (fs : List MetodoIngreso) (permiso : Option PermisoAcceso) (m : String) :
    manejar st ced idA ahora fs permiso (.validacion m) =
      (.error (.validacion m), st) := rfl

lemma manejar_noEncontrado_eq (st : Sistema) (ced idA : String) (ahora : FechaHora)
    (fs : List MetodoIngreso) (permiso : Option PermisoAcceso) (m : String) :
    manejar st ced idA ahora fs permiso (.noEncontrado m) =
      (.error (.noEncontrado m), st) := rfl

lemma manejar_pyError_eq (st : Sistema) (ced idA : String) (ahora : FechaHora)
    (fs : List MetodoIngreso) (permiso : Option PermisoAcceso) (m : String) :
    manejar st ced idA ahora fs permiso (.pyError m) =
      (.error (.pyError m), st) := rfl

lemma validar_rfid_preserva (cfg : Config) (st : Sistema) (serial ced : String)
    (ahora : FechaHora) (r : Except DomErr Unit) (st1 : Sistema)
    (h : validar_rfid cfg st serial ced ahora = (r, st1)) :
    st1.registros = st.registros ∧ st1.accesos = st.accesos := by
  cases hb : buscar st.rfid serial <;> rw [validar_rfid, hb] at h <;> cases h <;>
    exact ⟨rfl, rfl⟩

lemma validar_pin_preserva (cfg : Config) (st : Sistema) (ced idA : String)
    (sec : List Int) (r : Except DomErr Unit) (st1 : Sistema)
    (h : validar_pin cfg st ced idA sec = (r, st1)) :
    st1.registros = st.registros ∧ st1.accesos = st.accesos := by
  cases hb : obtener_por_usuario_area st.pins ced idA <;> rw [validar_pin, hb] at h <;>
    cases h <;> exact ⟨rfl, rfl⟩

lemma manejar_concluye (st st0 st' : Sistema) (ced idA : String) (ahora : FechaHora)
    (fs : List MetodoIngreso) (permop : Option PermisoAcceso) (e0 e : DomErr)
    (hced : exOk (validar_cedula ced) = true)
    (hidA : (pstrip idA).data ≠ [])
    (he : e.esFalloAcceso = true)
    (hm0 : manejar st0 ced idA ahora fs permop e0 = (.error e, st'))
    (hregs : st0.registros = st.registros)
    (hacc : st0.accesos = st.accesos) :
    st'.accesos = st.accesos
    ∧ ∃ r, st'.registros = st.registros ++ [r]
        ∧ r.resultado = .FALLO
        ∧ r.motivo = e.mensaje
        ∧ r.id_permiso = permop.map (fun p => p.id_permiso)
        ∧ r.factores = fs := by
  cases e0 with
  | autenticacion m =>
    rw [manejar_fallo_eq st0 ced idA ahora fs permop _ (by simp [DomErr.esFalloAcceso]) hced hidA] at hm0
    injection hm0 with h1 h2
    injection h1 with h3
    subst h3
    subst h2
    refine ⟨hacc, registro_fallo st0 ced idA ahora fs permop (.autenticacion m),
      by rw [hregs], rfl, rfl, rfl, rfl⟩
  | autorizacion m =>
    rw [manejar_fallo_eq st0 ced idA ahora fs permop _ (by simp [DomErr.esFalloAcceso]) hced hidA] at hm0
    injection hm0 with h1 h2
    injection h1 with h3
    subst h3
    subst h2
    refine ⟨hacc, registro_fallo st0 ced idA ahora fs permop (.autorizacion m),
      by rw [hregs], rfl, rfl, rfl, rfl⟩
  | hardware m =>
    rw [manejar_hardware_eq st0 ced idA ahora fs permop m hced hidA] at hm0
    injection hm0 with h1 h2
    injection h1 with h3
    subst h3
    simp [DomErr.esFalloAcceso] at he
  | validacion m =>
    rw [manejar_validacion_eq] at hm0
    injection hm0 with h1 h2
    injection h1 with h3
    subst h3
    simp [DomErr.esFalloAcceso] at he
  | noEncontrado m =>
    rw [manejar_noEncontrado_eq] at hm0
    injection hm0 with h1 h2
    injection h1 with h3
    subst h3
    simp [DomErr.esFalloAcceso] at he
  | pyError m =>
    rw [manejar_pyError_eq] at hm0
    injection hm0 with h1 h2
    injection h1 with h3
    subst h3
    simp [DomErr.esFalloAcceso] at he

/-- C7: the opening-window check accepts a time exactly per the same-day or
midnight-wrap rule of the specification, and for an area opening 20:00 and
closing 07:00, the times 06:59 and 20:00 are accessible and 19:59 is not. -/
theorem C7_ventana_de_apertura :
    (∀ (a : AreaAcceso) (ahora : FechaHora),
      a.es_accesible_ahora ahora = ventana_spec a.hora_apertura a.hora_cierre ahora.hora)
    ∧ area_nocturna.es_accesible_ahora ⟨0, hm 6 59⟩ = true
    ∧ area_nocturna.es_accesible_ahora ⟨0, hm 19 59⟩ = false
    ∧ area_nocturna.es_accesible_ahora ⟨0, hm 20 0⟩ = true :=
  ⟨fun _ _ => rfl, by decide, by decide, by decide⟩

/-- C9 counterexample: a national ID padded with a leading space passes
validar_cedula, which strips it first, yet the string does not consist of
exactly ten digits, so the claimed equivalence fails as stated. -/
theorem C9_contraejemplo :
    exOk (validar_cedula " 0102030400") = true
    ∧ cedula_spec " 0102030400" = false := by decide

/-- C9 amended: a string passes validar_cedula exactly when its
whitespace-stripped form consists of ten digits whose first two form a
province code in [1,24], whose third digit is in [0,5] and whose weighted
check digit matches the tenth digit. -/
theorem C9_cedula_amended (s : String) :
    exOk (validar_cedula s) = cedula_spec (pstrip s) := by
  simp only [validar_cedula, cedula_spec]
  rw [checksum_eq]
  by_cases h1 : (pstrip s).data = []
  · rw [if_pos h1]
    simp [exOk, h1]
  · rw [if_neg h1]
    by_cases h2 : (pstrip s).data.all Char.isDigit
    · rw [if_neg (not_not_intro h2)]
      by_cases h3 : (pstrip s).data.length = 10
      · rw [if_neg (not_not_intro h3)]
        by_cases h4 : digitos_a_nat ((pstrip s).data.take 2) < 1
            ∨ digitos_a_nat ((pstrip s).data.take 2) > 24
        · rw [if_pos h4]
          have hp : decide (1 ≤ digitos_a_nat ((pstrip s).data.take 2)
              ∧ digitos_a_nat ((pstrip s).data.take 2) ≤ 24) = false :=
            decide_eq_false (by omega)
          simp [exOk, hp]
        · rw [if_neg h4]
          by_cases h5 : (match (pstrip s).data.get? 2 with
              | some c => decide (guarantee_int c < 0 ∨ guarantee_int c > 5)
              | none => false) = true
          · rw [if_pos h5]
            cases hg : (pstrip s).data.get? 2 with
            | none => rw [hg] at h5; exact absurd h5 (by simp)
            | some c =>
              rw [hg] at h5
              simp only [decide_eq_true_eq] at h5
              have hc : decide (0 ≤ guarantee_int c ∧ guarantee_int c ≤ 5) = false :=
                decide_eq_false (by omega)
              simp [exOk, hg, hc]
          · rw [if_neg h5]
            by_cases h6 : checksum_spec (pstrip s).data = true
            · rw [if_neg (not_not_intro h6)]
              symm
              simp only [exOk, Bool.and_eq_true, decide_eq_true_eq]
              refine ⟨⟨⟨⟨h3, h2⟩, by omega⟩, ?_⟩, h6⟩
              cases hg : (pstrip s).data.get? 2 with
              | none =>
                rw [ List.get?_eq_none] at hg
                omega
              | some c =>
                rw [hg] at h5
                simp only [decide_eq_true_eq, not_or, not_lt] at h5
                simp only [decide_eq_true_eq]
                omega
            · rw [if_pos h6]
              rw [Bool.not_eq_true] at h6
              simp only [exOk, h6, Bool.and_false]
      · rw [if_pos h3]
        simp only [exOk, decide_eq_false h3, Bool.false_and]
    · rw [if_pos h2]
      rw [Bool.not_eq_true] at h2
      simp only [exOk, h2, Bool.and_false, Bool.false_and]

/-- C4: with an enrolled pattern present and the default configuration
(timing check off), validar_patron raises AuthenticationError exactly when
the similarity score, position matches over the longer length, is below the
0.9 threshold; the worked examples score 1, 2/3 and 2/3. -/
theorem C4_similitud_patron (st : Sistema) (cedula : String)
    (patron : PatronGestual) (sec : List Int) (tiempos : Option (List Rat))
    (hpat : buscar st.patrones cedula = some patron)
    (hsec : sec ≠ []) :
    ((∃ m, validar_patron cfg0 st cedula sec tiempos = .error (.autenticacion m))
      ↔ similitud_patron patron.secuencia_gestos sec < cfg0.umbral_similitud_patron)
    ∧ similitud_patron [1, 2, 3] [1, 2, 3] = 1
    ∧ similitud_patron [1, 2, 3] [1, 2, 9] = 2 / 3
    ∧ similitud_patron [1, 2, 3] [1, 2] = 2 / 3 := by
  refine ⟨?_, by norm_num [similitud_patron, coincidencias],
    by norm_num [similitud_patron, coincidencias],
    by norm_num [similitud_patron, coincidencias]⟩
  simp only [validar_patron, hpat]
  rw [if_neg (by simpa using hsec)]
  by_cases hs : similitud_patron patron.secuencia_gestos sec < cfg0.umbral_similitud_patron
  · rw [if_pos hs]
    simp [hs]
  · rw [if_neg hs]
    constructor
    · rintro ⟨m, hm2⟩
      exfalso
      cases hp : patron.tiempos_entre_gestos <;> cases htm : tiempos <;>
        rw [hp, htm] at hm2 <;> exact nomatch hm2
    · intro h
      exact absurd h hs

/-- C4 witness: the demo pattern with capture [1, 2, 9] instantiates the
threshold equivalence and the worked scores. -/
theorem C4_testigo :
    ((∃ m, validar_patron cfg0 sistema_demo cedula_demo [1, 2, 9] none = .error (.autenticacion m))
      ↔ similitud_patron patron_demo.secuencia_gestos [1, 2, 9] < cfg0.umbral_similitud_patron)
    ∧ similitud_patron [1, 2, 3] [1, 2, 3] = 1
    ∧ similitud_patron [1, 2, 3] [1, 2, 9] = 2 / 3
    ∧ similitud_patron [1, 2, 3] [1, 2] = 2 / 3 :=
  C4_similitud_patron sistema_demo cedula_demo patron_demo [1, 2, 9] none rfl (by decide)

/-- C10: when no pattern is enrolled, the lookup error precedes the
empty-capture check, so the no-pattern AuthenticationError is raised even
for an empty capture, and the empty-capture ValidationError can only occur
when an enrolled pattern exists for the owner. -/
theorem C10_orden_lookup_patron (cfg : Config) :
    (∀ (st : Sistema) (cedula : String) (sec : List Int) (tiempos : Option (List Rat)),
      buscar st.patrones cedula = none →
      validar_patron cfg st cedula sec tiempos =
        .error (.autenticacion "No hay patrón gestual enrolado para este usuario."))
    ∧ (∀ (st : Sistema) (cedula : String) (sec : List Int) (tiempos : Option (List Rat)) (m : String),
      validar_patron cfg st cedula sec tiempos = .error (.validacion m) →
      (buscar st.patrones cedula).isSome = true) := by
  constructor
  · intro st cedula sec tiempos hno
    simp [validar_patron, hno]
  · intro st cedula sec tiempos m hval
    cases hb : buscar st.patrones cedula with
    | some p => rfl
    | none => rw [validar_patron, hb] at hval; exact absurd hval (by simp)

/-- C10 witness: the empty system has no enrolled pattern and an empty
capture still yields the no-pattern AuthenticationError. -/
theorem C10_testigo :
    validar_patron cfg0 {} "u1" [] none =
      .error (.autenticacion "No hay patrón gestual enrolado para este usuario.") :=
  (C10_orden_lookup_patron cfg0).1 {} "u1" [] none rfl

/-- C8: a successful RFID check (owner match on a currently valid ACTIVE
credential, prior fail-count below the maximum) increments the success
count, resets the fail count to 0 and stamps last-used with the supplied
now; the returned credential is the state seen by subsequent attempts. -/
theorem C8_rfid_exito (cfg : Config) (cred : CredencialRFID) (cedula : String)
    (ahora : FechaHora)
    (hestado : cred.estado = .ACTIVA)
    (howner : cred.cedula_propietario = cedula)
    (hfecha : ahora.fecha ≤ cred.fecha_expiracion)
    (hfallos : cred.intentos_fallidos < cfg.max_intentos_rfid) :
    validar_rfid_cred cfg cred cedula ahora =
      (.ok (), { cred with intentos_exitosos := cred.intentos_exitosos + 1,
                           intentos_fallidos := 0,
                           ultimo_acceso := some ahora }) := by
  have hvig : cred.esta_vigente ahora.fecha = true := by
    simp only [CredencialRFID.esta_vigente, hestado]
    have hne : ¬ (EstadoCredencial.ACTIVA = EstadoCredencial.BLOQUEADA
        ∨ EstadoCredencial.ACTIVA = EstadoCredencial.PERDIDA) := by decide
    have hnf : ¬ (ahora.fecha > cred.fecha_expiracion) := by omega
    rw [if_neg hne, if_neg hnf]
  simp [validar_rfid_cred, hestado, howner, hvig]

/-- C8 witness: the demo credential at the demo instant. -/
theorem C8_testigo :
    validar_rfid_cred cfg0 cred_demo cedula_demo ahora_demo =
      (.ok (), { cred_demo with intentos_exitosos := 1, intentos_fallidos := 0, ultimo_acceso := some ahora_demo }) :=
  C8_rfid_exito cfg0 cred_demo cedula_demo ahora_demo rfl rfl (by decide) (by decide)

/-- C2 counterexample: an ACTIVE credential with fail-count 0 presented
three times by its true owner after its expiry date: every call fails, yet
the state after three consecutive failures is EXPIRED, not BLOCKED, because
the first expiry failure flips the state and later calls hard-fail without
counting. -/
theorem C2_contraejemplo :
    exOk (validar_rfid_cred cfg0 cred_expirada cedula_demo ⟨10, 0⟩).1 = false
    ∧ (validar_rfid_cred cfg0 cred_expirada cedula_demo ⟨10, 0⟩).2.estado = .EXPIRADA
    ∧ validar_rfid_cred cfg0 (validar_rfid_cred cfg0 cred_expirada cedula_demo ⟨10, 0⟩).2 cedula_demo ⟨10, 0⟩ =
        (.error (.autenticacion "RFID expirada."),
         (validar_rfid_cred cfg0 cred_expirada cedula_demo ⟨10, 0⟩).2)
    ∧ validar_rfid_cred cfg0 (validar_rfid_cred cfg0 (validar_rfid_cred cfg0 cred_expirada cedula_demo ⟨10, 0⟩).2 cedula_demo ⟨10, 0⟩).2 cedula_demo ⟨10, 0⟩ =
        (.error (.autenticacion "RFID expirada."),
         (validar_rfid_cred cfg0 cred_expirada cedula_demo ⟨10, 0⟩).2)
    ∧ (validar_rfid_cred cfg0 (validar_rfid_cred cfg0 (validar_rfid_cred cfg0 cred_expirada cedula_demo ⟨10, 0⟩).2 cedula_demo ⟨10, 0⟩).2 cedula_demo ⟨10, 0⟩).2.estado ≠ .BLOQUEADA := by
  decide

/-- C2 amended: from an ACTIVE credential with fail-count 0, exactly three
consecutive owner-mismatch failures block the credential, and once BLOCKED
every later check fails immediately with the blocked message leaving the
credential untouched regardless of owner or dates; a date-expiry failure
instead flips the state to EXPIRED on the first failure and later checks
hard-fail with the expired message without reaching BLOCKED. -/
theorem C2_rfid_bloqueo_amended (cred : CredencialRFID) (c1 c2 c3 : String)
    (t1 t2 t3 : FechaHora)
    (hestado : cred.estado = .ACTIVA) (hfallos : cred.intentos_fallidos = 0)
    (h1 : cred.cedula_propietario ≠ c1)
    (h2 : cred.cedula_propietario ≠ c2)
    (h3 : cred.cedula_propietario ≠ c3) :
    validar_rfid_cred cfg0 cred c1 t1 =
      (.error (.autenticacion "RFID no corresponde al usuario."),
       { cred with intentos_fallidos := 1 })
    ∧ validar_rfid_cred cfg0 { cred with intentos_fallidos := 1 } c2 t2 =
      (.error (.autenticacion "RFID no corresponde al usuario."),
       { cred with intentos_fallidos := 2 })
    ∧ validar_rfid_cred cfg0 { cred with intentos_fallidos := 2 } c3 t3 =
      (.error (.autenticacion "RFID bloqueada por demasiados intentos fallidos."),
       { cred with intentos_fallidos := 3, estado := .BLOQUEADA })
    ∧ (∀ (c : CredencialRFID) (ced : String) (t : FechaHora), c.estado = .BLOQUEADA →
        validar_rfid_cred cfg0 c ced t = (.error (.autenticacion "RFID bloqueada."), c)) := by
  refine ⟨?_, ?_, ?_, ?_⟩
  · simp [validar_rfid_cred, hestado, h1, hfallos, cfg0]
  · simp [validar_rfid_cred, hestado, h2, cfg0]
  · simp [validar_rfid_cred, hestado, h3, cfg0]
  · intro c ced t hc
    simp [validar_rfid_cred, hc]

/-- C2 witness: the third owner-mismatch on the demo credential blocks it. -/
theorem C2_testigo :
    validar_rfid_cred cfg0 { cred_demo with intentos_fallidos := 2 } cedula_demo2 ahora_demo =
      (.error (.autenticacion "RFID bloqueada por demasiados intentos fallidos."),
       { cred_demo with intentos_fallidos := 3, estado := .BLOQUEADA }) :=
  (C2_rfid_bloqueo_amended cred_demo cedula_demo2 cedula_demo2 cedula_demo2
    ahora_demo ahora_demo ahora_demo rfl rfl (by decide) (by decide) (by decide)).2.2.1

/-- C6 (code finding): the PIN store is keyed by the (owner, area) pair and
exposes only the pair lookup, so the stored PIN is not determined by the
area alone: two owners hold distinct PINs for the same area and each pair
lookup returns its own; the modelled validar_pin translates the missing
pair into the no-PIN-configured AuthenticationError. -/
theorem C6_pin_por_usuario_y_area :
    obtener_por_usuario_area [((cedula_demo, "A1"), pin_ejemplo), ((cedula_demo2, "A1"), pin_u2)] cedula_demo "A1" = .ok pin_ejemplo
    ∧ obtener_por_usuario_area [((cedula_demo, "A1"), pin_ejemplo), ((cedula_demo2, "A1"), pin_u2)] cedula_demo2 "A1" = .ok pin_u2
    ∧ pin_ejemplo ≠ pin_u2
    ∧ (validar_pin cfg0 { pins := [((cedula_demo, "A1"), pin_ejemplo), ((cedula_demo2, "A1"), pin_u2)] } "0555555555" "A1" [1, 3, 7, 15]).1 =
        .error (.autenticacion "No hay PIN gestual configurado para esta área.") := by
  decide

/-- C1 (code finding): the orchestrator audit handler is reachable only
from the authorization step: an out-of-hours request yields exactly one
FAILURE record carrying the error message, empty factors and no permission
id, and the error is re-raised; a fully valid request instead raises the
keyword TypeError at the validar_rfid call, which no except clause catches,
so it propagates with the state untouched: no factor ever passes and no
factor failure is ever audited. -/
theorem C1_typeerror_sin_auditar :
    ((solicitar_acceso cfg0 sistema_demo cedula_demo "A1" "R1" sensor_timeout act0 ⟨3, hm 23 0⟩).1 =
        .error (.autorizacion "Acceso Denegado: fuera de horario permitido."))
    ∧ ((solicitar_acceso cfg0 sistema_demo cedula_demo "A1" "R1" sensor_timeout act0 ⟨3, hm 23 0⟩).2.registros.length = 1)
    ∧ (∀ reg ∈ (solicitar_acceso cfg0 sistema_demo cedula_demo "A1" "R1" sensor_timeout act0 ⟨3, hm 23 0⟩).2.registros,
        reg.resultado = .FALLO
        ∧ reg.motivo = "Acceso Denegado: fuera de horario permitido."
        ∧ reg.factores = [] ∧ reg.id_permiso = none)
    ∧ ((solicitar_acceso cfg0 sistema_demo cedula_demo "A1" "R1" sensor_timeout act0 ⟨3, hm 23 0⟩).2.accesos = [])
    ∧ (solicitar_acceso cfg0 sistema_demo cedula_demo "A1" "R1" sensor_timeout act0 ahora_demo =
        (.error (.pyError msg_typeerror_rfid), sistema_demo)) := by
  decide

/-- C5 (code finding): every checkPIN call dies with AttributeError at the
nonexistent repository method before any comparison or lockout can run, and
returns the store untouched, so three consecutive wrong attempts against
the stored ACTIVE PIN count no failures, never block it and never raise an
incorrect-PIN or blocked message. -/
theorem C5_pin_attributeerror :
    validar_pin_fuente sistema_demo "A1" [0, 0, 0, 0] =
      (.error (.pyError msg_attributeerror_pin), sistema_demo)
    ∧ validar_pin_fuente (validar_pin_fuente sistema_demo "A1" [0, 0, 0, 0]).2 "A1" [0, 0, 0, 0] =
      (.error (.pyError msg_attributeerror_pin), sistema_demo)
    ∧ validar_pin_fuente (validar_pin_fuente (validar_pin_fuente sistema_demo "A1" [0, 0, 0, 0]).2 "A1" [0, 0, 0, 0]).2 "A1" [0, 0, 0, 0] =
      (.error (.pyError msg_attributeerror_pin), sistema_demo)
    ∧ buscar sistema_demo.pins (cedula_demo, "A1") = some pin_ejemplo
    ∧ pin_ejemplo.estado = .ACTIVO
    ∧ pin_ejemplo.intentos_fallidos = 0 := by
  decide

end AccessMFA
